import Mathlib

/-!
Shallow embedding of parts of the HiSim component library
(src/hisim/components and src/examples), with theorems checking the
specification claims about the shared context store, component SPI hooks,
state save/restore, and the heat-distribution / gas-heater calculations.

Numeric values (Python floats) are modelled as rationals.  Per-timestep
slab writes are modelled as association lists from an output field name to
the written value.  Fallible code returns `Except String`.
-/

namespace HiSim

/-- Keys of the shared context store that appear in the sources under
`src` (`hisim/components/heat_distribution_system.py`,
`examples/household_reference_gas_heater_diesel_car_scaled.py`). -/
inductive SingletonDictKeyEnum where
  | MAXTHERMALBUILDINGDEMAND
  | WATERMASSFLOWRATEOFHEATINGDISTRIBUTIONSYSTEM
  | HEATINGSYSTEM
  | SETHEATINGTEMPERATUREFORBUILDING
  | SETCOOLINGTEMPERATUREFORBUILDING
  | NUMBEROFAPARTMENTS
  deriving DecidableEq, Repr

/-- Modelled from the spec: the class `SingletonSimRepository` lives in
`hisim/sim_repository_singleton.py`, which is not under `src`; the spec
describes it as a key→value map with `set`, `get` and an unset-key test.
The call sites under `src` (`HeatDistribution.__init__`,
`HeatDistributionController.__init__`,
`ReferenceHouseholdScaledConfig.get_default`) reach one shared instance
through bare `SingletonSimRepository()` constructor calls, i.e. the map is
process-ambient state rather than a parameter of component construction;
here the map is made explicit so that this ambient state can be threaded
through the embedded constructors.  Entries are rationals (the enum entry
`HEATINGSYSTEM` is an `IntEnum` in the source and is stored through its
integer value). -/
structure SimRepository where
  entries : List (SingletonDictKeyEnum × ℚ)
  deriving DecidableEq, Repr

/-- The repository of a freshly started process: no entries. -/
def SimRepository.empty : SimRepository := ⟨[]⟩

/-- Membership test used by `exist_entry` in the source call sites. -/
def SimRepository.exist_entry (r : SimRepository) (k : SingletonDictKeyEnum) : Bool :=
  (r.entries.lookup k).isSome

/-- Lookup used by `get_entry` in the source call sites. -/
def SimRepository.get_entry (r : SimRepository) (k : SingletonDictKeyEnum) : Option ℚ :=
  r.entries.lookup k

/-- Store used by `set_entry` in the source call sites. -/
def SimRepository.set_entry (r : SimRepository) (k : SingletonDictKeyEnum) (v : ℚ) :
    SimRepository :=
  ⟨(k, v) :: r.entries⟩

/-- `HeatingSystemType` from `heat_distribution_system.py` (an `IntEnum`
with `RADIATOR = 1`, `FLOORHEATING = 2`). -/
inductive HeatingSystemType where
  | RADIATOR
  | FLOORHEATING
  deriving DecidableEq, Repr

/-- Integer value of the `IntEnum` member, used when the heating system is
stored in the repository. -/
def HeatingSystemType.toRat : HeatingSystemType → ℚ
  | .RADIATOR => 1
  | .FLOORHEATING => 2

/-- `HeatDistributionConfig` from `heat_distribution_system.py`. -/
structure HeatDistributionConfig where
  name : String
  water_temperature_in_distribution_system_in_celsius : ℚ
  heating_system : HeatingSystemType
  deriving DecidableEq, Repr

/-- `HeatDistributionConfig.get_default_heatdistributionsystem_config`. -/
def HeatDistributionConfig.get_default_heatdistributionsystem_config : HeatDistributionConfig :=
  { name := "HeatDistributionSystem"
    water_temperature_in_distribution_system_in_celsius := 22
    heating_system := HeatingSystemType.FLOORHEATING }

/-- `HeatDistribution.build`: the delta temperature chosen from the
heating system type (3 for floor heating, 20 for radiators). -/
def HeatDistribution.build_delta_temperature (heating_system : HeatingSystemType) : ℚ :=
  match heating_system with
  | .FLOORHEATING => 3
  | .RADIATOR => 20

/-- Error message of the `KeyError` raised by `HeatDistribution.__init__`
when the maximum-thermal-building-demand key is unset. -/
def HeatDistribution.missing_key_message : String :=
  "Keys for max thermal building demand was not found in the singleton sim repository."

/-- `HeatDistribution.calc_heating_distribution_system_water_mass_flow_rate`:
`demand / (c_w * delta_T)`.  The specific heat capacity of water comes from
`PhysicsConfig` (`hisim/components/configuration.py`, not under `src`) and
is therefore kept as a parameter `c_w`. -/
def HeatDistribution.calc_heating_distribution_system_water_mass_flow_rate
    (c_w : ℚ) (delta_temperature_in_celsius : ℚ)
    (max_thermal_building_demand_in_watt : ℚ) : ℚ :=
  max_thermal_building_demand_in_watt / (c_w * delta_temperature_in_celsius)

/-- The repository-facing part of `HeatDistribution.__init__`
(`heat_distribution_system.py` lines 137–165): if the key
`MAXTHERMALBUILDINGDEMAND` exists in the ambient repository, read it,
derive the water mass flow rate and store it together with the heating
system type back into the repository; otherwise raise a `KeyError`.
Returns the computed mass flow rate and the updated repository. -/
def HeatDistribution.init (c_w : ℚ) (config : HeatDistributionConfig)
    (repo : SimRepository) : Except String (ℚ × SimRepository) :=
  let delta := HeatDistribution.build_delta_temperature config.heating_system
  if SimRepository.exist_entry repo SingletonDictKeyEnum.MAXTHERMALBUILDINGDEMAND then
    match SimRepository.get_entry repo SingletonDictKeyEnum.MAXTHERMALBUILDINGDEMAND with
    | some max_thermal_building_demand_in_watt =>
      let m := HeatDistribution.calc_heating_distribution_system_water_mass_flow_rate
        c_w delta max_thermal_building_demand_in_watt
      let repo1 := SimRepository.set_entry repo
        SingletonDictKeyEnum.WATERMASSFLOWRATEOFHEATINGDISTRIBUTIONSYSTEM m
      let repo2 := SimRepository.set_entry repo1
        SingletonDictKeyEnum.HEATINGSYSTEM config.heating_system.toRat
      Except.ok (m, repo2)
    | none => Except.error HeatDistribution.missing_key_message
  else
    Except.error HeatDistribution.missing_key_message

/-- A set of slab writes of one evaluation call: output field name paired
with the written value. -/
abbrev Writes := List (String × ℚ)

/-- The `WaterTemperatureOutput` field name of `HeatDistribution`. -/
def waterTemperatureOutputName : String := "WaterTemperatureOutput"

/-- The `ThermalPowerDelivered` field name of `HeatDistribution`. -/
def thermalPowerDeliveredName : String := "ThermalPowerDelivered"

/-- The `Sum` output field name of `SumBuilderForThreeInputs`. -/
def sumOutputName : String := "Sum"

/-- The `ThermalOutputPower` field name of `GasHeater`. -/
def thermalOutputPowerName : String := "ThermalOutputPower"

/-- The `MassflowOutputTemperature` field name of `GasHeater`. -/
def massflowOutputTemperatureName : String := "MassflowOutputTemperature"

/-- The `MassflowOutput` field name of `GasHeater` (its declared string
is `Hot Water Energy Output`). -/
def massflowOutputName : String := "Hot Water Energy Output"

/-- The `GasDemand` field name of `GasHeater`. -/
def gasDemandName : String := "GasDemand"

/-- Message of the `ValueError` raised on an unknown controller state. -/
def unknownModeMessage : String := "unknown mode"

/-- Message of the `ValueError` raised in the unreachable branch of the
heat-exchange calculation. -/
def unacceptableDemandMessage : String :=
  "Theoretical thermal demand has unacceptable value here."

/-- Message of the exception raised by `GasHeater.i_simulate` on an
out-of-range control signal. -/
def controlSignalRangeMessage : String := "Expected a control signal between 0 and 1"

/-- The mode string `on` of `HeatDistributionController`. -/
def modeOn : String := "on"

/-- The mode string `off` of `HeatDistributionController`. -/
def modeOff : String := "off"

/-- Output field names declared by `HeatDistribution` via `add_output`. -/
def HeatDistribution.output_names : List String :=
  [waterTemperatureOutputName, thermalPowerDeliveredName]

/-- `HeatDistribution.determine_water_temperature_output_after_heat_exchange_with_building_and_effective_thermal_power`
(`heat_distribution_system.py` lines 390–461), literally transcribed:
`Tout = Tin - Q/(m*c)` clamped against the residence temperature when
heating (`Q > 0`) or cooling (`Q < 0`); pass-through when `Q = 0`. -/
def HeatDistribution.determine_water_temperature_output (c_w : ℚ)
    (water_mass_flow_in_kg_per_second : ℚ)
    (water_temperature_input_in_celsius : ℚ)
    (theoretical_thermal_buiding_demand_in_watt : ℚ)
    (residence_temperature_in_celsius : ℚ) : Except String (ℚ × ℚ) :=
  let water_temperature_output_in_celsius :=
    water_temperature_input_in_celsius -
      theoretical_thermal_buiding_demand_in_watt /
        (water_mass_flow_in_kg_per_second * c_w)
  if theoretical_thermal_buiding_demand_in_watt > 0 then
    if water_temperature_input_in_celsius > residence_temperature_in_celsius then
      let t := max water_temperature_output_in_celsius residence_temperature_in_celsius
      Except.ok (t, c_w * water_mass_flow_in_kg_per_second *
        (water_temperature_input_in_celsius - t))
    else
      Except.ok (water_temperature_input_in_celsius, 0)
  else if theoretical_thermal_buiding_demand_in_watt < 0 then
    if water_temperature_input_in_celsius < residence_temperature_in_celsius then
      let t := min water_temperature_output_in_celsius residence_temperature_in_celsius
      Except.ok (t, c_w * water_mass_flow_in_kg_per_second *
        (water_temperature_input_in_celsius - t))
    else
      Except.ok (water_temperature_input_in_celsius, 0)
  else if theoretical_thermal_buiding_demand_in_watt = 0 then
    Except.ok (water_temperature_input_in_celsius, 0)
  else
    Except.error unacceptableDemandMessage

/-- `HeatDistribution.i_simulate` (`heat_distribution_system.py` lines
316–370).  On `force_convergence` the body is `pass`: no slab slot is
written.  Otherwise the controller state selects the heat-exchange
calculation (state 1), pass-through (state 0) or a `ValueError`. -/
def HeatDistribution.i_simulate (force_convergence : Bool) (c_w : ℚ)
    (water_mass_flow_rate : ℚ) (state_controller : ℚ)
    (theoretical_thermal_building_demand_in_watt : ℚ)
    (water_temperature_input_in_celsius : ℚ)
    (residence_temperature_input_in_celsius : ℚ) : Except String Writes :=
  if force_convergence then
    Except.ok []
  else
    if state_controller = 1 then
      match HeatDistribution.determine_water_temperature_output c_w
          water_mass_flow_rate water_temperature_input_in_celsius
          theoretical_thermal_building_demand_in_watt
          residence_temperature_input_in_celsius with
      | Except.ok p =>
        Except.ok [(waterTemperatureOutputName, p.1), (thermalPowerDeliveredName, p.2)]
      | Except.error e => Except.error e
    else if state_controller = 0 then
      Except.ok [(waterTemperatureOutputName, water_temperature_input_in_celsius),
        (thermalPowerDeliveredName, 0)]
    else
      Except.error unknownModeMessage

/-- `GenericGasHeaterConfig` from `generic_gas_heater.py`. -/
structure GenericGasHeaterConfig where
  is_modulating : Bool
  minimal_thermal_power_in_watt : ℚ
  maximal_thermal_power_in_watt : ℚ
  eff_th_min : ℚ
  eff_th_max : ℚ
  delta_temperature_in_celsius : ℚ
  maximal_mass_flow_in_kilogram_per_second : ℚ
  maximal_temperature_in_celsius : ℚ
  temperature_delta_in_celsius : ℚ
  maximal_power_in_watt : ℚ
  deriving DecidableEq, Repr

/-- `GasHeater.get_default_config`. -/
def GasHeater.get_default_config : GenericGasHeaterConfig :=
  { is_modulating := true
    minimal_thermal_power_in_watt := 1000
    maximal_thermal_power_in_watt := 12000
    eff_th_min := 6/10
    eff_th_max := 9/10
    delta_temperature_in_celsius := 25
    maximal_mass_flow_in_kilogram_per_second := 12000 / (4180 * 25)
    maximal_temperature_in_celsius := 80
    temperature_delta_in_celsius := 10
    maximal_power_in_watt := 12000 }

/-- Output field names declared by `GasHeater` via `add_output`. -/
def GasHeater.output_names : List String :=
  [massflowOutputName, massflowOutputTemperatureName, gasDemandName, thermalOutputPowerName]

/-- `GasHeater.i_simulate` (`generic_gas_heater.py` lines 158–189).  The
attribute `maximal_thermal_power_in_watt` of the component is set in
`__init__` from `config.maximal_power_in_watt`, which is reproduced here;
the `force_convergence` flag is ignored by the source body.  The local
constant `c_w = 4182` is taken from the source. -/
def GasHeater.i_simulate (config : GenericGasHeaterConfig) (force_convergence : Bool)
    (control_signal : ℚ) (mass_flow_input_temperature : ℚ) : Except String Writes :=
  if control_signal > 1 then
    Except.error controlSignalRangeMessage
  else if control_signal < 0 then
    Except.error controlSignalRangeMessage
  else
    let maximal_thermal_power_in_watt := config.maximal_power_in_watt
    let d_eff_th := config.eff_th_max - config.eff_th_min
    let pair :=
      if control_signal * maximal_thermal_power_in_watt <
          config.minimal_thermal_power_in_watt then
        (config.minimal_thermal_power_in_watt, config.eff_th_min)
      else
        (control_signal * maximal_thermal_power_in_watt,
          config.eff_th_min + d_eff_th * control_signal)
    let gas_power := pair.1 * pair.2 * control_signal
    let c_w : ℚ := 4182
    let mass_out_temp := config.temperature_delta_in_celsius + mass_flow_input_temperature
    let mass_out := gas_power / (c_w * config.temperature_delta_in_celsius)
    Except.ok [(thermalOutputPowerName, gas_power),
      (massflowOutputTemperatureName, mass_out_temp),
      (massflowOutputName, mass_out),
      (gasDemandName, gas_power)]

/-- `BatteryState` from `advanced_battery_bslib.py`. -/
structure BatteryState where
  soc : ℚ
  deriving DecidableEq, Repr

/-- `BatteryState.clone`: a fresh state carrying the same state of
charge. -/
def BatteryState.clone (s : BatteryState) : BatteryState :=
  { soc := s.soc }

/-- `HeatingWaterStorageState` from `simple_heat_water_storage.py`. -/
structure HeatingWaterStorageState where
  start_timestep : ℤ
  mean_water_temperature_in_storage_in_celsius : ℚ
  cool_water_temperature_in_celsius : ℚ
  hot_water_temperature_in_celsius : ℚ
  deriving DecidableEq, Repr

/-- `HeatingWaterStorageState.clone`: a fresh state carrying the same
four scalar fields. -/
def HeatingWaterStorageState.clone (s : HeatingWaterStorageState) : HeatingWaterStorageState :=
  { start_timestep := s.start_timestep
    mean_water_temperature_in_storage_in_celsius :=
      s.mean_water_temperature_in_storage_in_celsius
    cool_water_temperature_in_celsius := s.cool_water_temperature_in_celsius
    hot_water_temperature_in_celsius := s.hot_water_temperature_in_celsius }

/-- `HeatPumpState` from `advanced_heat_pump_hplib.py`. -/
structure HeatPumpState where
  time_on : ℤ
  time_off : ℤ
  time_on_cooling : ℤ
  on_off_previous : ℚ
  deriving DecidableEq, Repr

/-- `HeatPumpState.self_copy`: a fresh state carrying the same four
scalar fields. -/
def HeatPumpState.self_copy (s : HeatPumpState) : HeatPumpState :=
  { time_on := s.time_on
    time_off := s.time_off
    time_on_cooling := s.time_on_cooling
    on_off_previous := s.on_off_previous }

/-!
Per-component save/restore memory.  Each component object carries a
current and a previous state attribute; `i_save_state` and
`i_restore_state` are functions on that pair, transcribed from the
respective source bodies.
-/

/-- The state-carrying attributes of `Battery`
(`advanced_battery_bslib.py`). -/
structure BatteryMem where
  state : BatteryState
  previous_state : BatteryState
  deriving DecidableEq, Repr

/-- `Battery.i_save_state`: `self.previous_state = self.state.clone()`. -/
def Battery.i_save_state (m : BatteryMem) : BatteryMem :=
  { m with previous_state := m.state.clone }

/-- `Battery.i_restore_state`: `self.state = self.previous_state.clone()`. -/
def Battery.i_restore_state (m : BatteryMem) : BatteryMem :=
  { m with state := m.previous_state.clone }

/-- The state-carrying attributes of `HeatingWaterStorage`
(`simple_heat_water_storage.py`). -/
structure HeatingWaterStorageMem where
  state : HeatingWaterStorageState
  previous_state : HeatingWaterStorageState
  deriving DecidableEq, Repr

/-- `HeatingWaterStorage.i_save_state`:
`self.previous_state = self.state.clone()`. -/
def HeatingWaterStorage.i_save_state (m : HeatingWaterStorageMem) : HeatingWaterStorageMem :=
  { m with previous_state := m.state.clone }

/-- `HeatingWaterStorage.i_restore_state`:
`self.state = self.previous_state.clone()`. -/
def HeatingWaterStorage.i_restore_state (m : HeatingWaterStorageMem) : HeatingWaterStorageMem :=
  { m with state := m.previous_state.clone }

/-- The state-carrying attributes of `SumBuilderForThreeInputs`
(`sumbuilder.py` lines 348–349: `self.state = 0`,
`self.previous_state = 0`). -/
structure SumBuilderForThreeInputsMem where
  state : ℤ
  previous_state : ℤ
  deriving DecidableEq, Repr

/-- `SumBuilderForThreeInputs.i_save_state` is `pass` (the copying
assignment is commented out in the source): the memory is unchanged. -/
def SumBuilderForThreeInputs.i_save_state (m : SumBuilderForThreeInputsMem) :
    SumBuilderForThreeInputsMem := m

/-- `SumBuilderForThreeInputs.i_restore_state` is `pass` (the restoring
assignment is commented out in the source): the memory is unchanged. -/
def SumBuilderForThreeInputs.i_restore_state (m : SumBuilderForThreeInputsMem) :
    SumBuilderForThreeInputsMem := m

/-- The state-carrying attributes of `HeatDistributionController`
(`heat_distribution_system.py` lines 563–564: mode strings, starting at
`off`). -/
structure HeatDistributionControllerMem where
  controller_heat_distribution_mode : String
  previous_controller_heat_distribution_mode : String
  deriving DecidableEq, Repr

/-- `HeatDistributionController.i_save_state`
(`heat_distribution_system.py` lines 639–643):
`self.previous_controller_heat_distribution_mode = self.controller_heat_distribution_mode`. -/
def HeatDistributionController.i_save_state (m : HeatDistributionControllerMem) :
    HeatDistributionControllerMem :=
  { m with previous_controller_heat_distribution_mode :=
      m.controller_heat_distribution_mode }

/-- `HeatDistributionController.i_restore_state`
(`heat_distribution_system.py` lines 645–647), transcribed exactly:
`self.controller_heat_distribution_mode = self.controller_heat_distribution_mode`
— the current mode is assigned to itself, so nothing is restored. -/
def HeatDistributionController.i_restore_state (m : HeatDistributionControllerMem) :
    HeatDistributionControllerMem :=
  { m with controller_heat_distribution_mode := m.controller_heat_distribution_mode }

/-- `SumBuilderForThreeInputs.i_simulate` (`sumbuilder.py` lines
362–368): reads the three inputs and writes their sum to the single
output; the `force_convergence` flag is ignored by the source body. -/
def SumBuilderForThreeInputs.i_simulate (force_convergence : Bool)
    (val1 val2 val3 : ℚ) : Except String Writes :=
  Except.ok [(sumOutputName, val1 + val2 + val3)]

/-- Output field names declared by `SumBuilderForThreeInputs` via
`add_output`. -/
def SumBuilderForThreeInputs.output_names : List String := [sumOutputName]

/-!
Which SPI hooks each component class under `src/hisim/components`
defines in its own class body.  Transcribed from the `def i_...` lines of
each class.
-/

/-- Flags recording which of the five SPI hook methods a component class
defines in its class body. -/
structure ComponentHookTable where
  has_i_prepare_simulation : Bool
  has_i_simulate : Bool
  has_i_doublecheck : Bool
  has_i_save_state : Bool
  has_i_restore_state : Bool
  deriving DecidableEq, Repr

/-- Hook table shared by the component classes that define all five
hooks. -/
def allFiveHooks : ComponentHookTable :=
  { has_i_prepare_simulation := true
    has_i_simulate := true
    has_i_doublecheck := true
    has_i_save_state := true
    has_i_restore_state := true }

/-- Hook table of the component classes that define `i_simulate`,
`i_doublecheck`, `i_save_state` and `i_restore_state` but not
`i_prepare_simulation`. -/
def fourHooksNoPrepare : ComponentHookTable :=
  { has_i_prepare_simulation := false
    has_i_simulate := true
    has_i_doublecheck := true
    has_i_save_state := true
    has_i_restore_state := true }

/-- The domain component classes defined under `src/hisim/components`
(the subclasses of `Component`), one constructor per class. -/
inductive ComponentClass where
  | Battery
  | HeatPumpHplib
  | HeatPumpHplibControllerL1
  | L2_Controller
  | Car
  | GasHeater
  | GasHeaterWithController
  | GasHeaterController
  | HeatSource
  | HeatDistribution
  | HeatDistributionController
  | HeatingWaterStorage
  | CalculateOperation
  | ElectricityGrid
  | SumBuilderForTwoInputs
  | SumBuilderForThreeInputs
  deriving DecidableEq, Repr

/-- The hooks each component class under `src/hisim/components` defines,
transcribed file by file from the `def i_...` lines of each class body. -/
def componentHookTables : List (ComponentClass × ComponentHookTable) :=
  [(ComponentClass.Battery, allFiveHooks),
   (ComponentClass.HeatPumpHplib, allFiveHooks),
   (ComponentClass.HeatPumpHplibControllerL1, allFiveHooks),
   (ComponentClass.L2_Controller, fourHooksNoPrepare),
   (ComponentClass.Car, allFiveHooks),
   (ComponentClass.GasHeater, allFiveHooks),
   (ComponentClass.GasHeaterWithController, allFiveHooks),
   (ComponentClass.GasHeaterController, allFiveHooks),
   (ComponentClass.HeatSource, fourHooksNoPrepare),
   (ComponentClass.HeatDistribution, allFiveHooks),
   (ComponentClass.HeatDistributionController, allFiveHooks),
   (ComponentClass.HeatingWaterStorage, allFiveHooks),
   (ComponentClass.CalculateOperation, fourHooksNoPrepare),
   (ComponentClass.ElectricityGrid, allFiveHooks),
   (ComponentClass.SumBuilderForTwoInputs, allFiveHooks),
   (ComponentClass.SumBuilderForThreeInputs, fourHooksNoPrepare)]

/-!
Doublecheck hooks.  The bodies of `i_doublecheck` of the components under
`src` are all `pass`; each embedded hook receives the component state and
the slab (all slot values of the current timestep) and returns them.  The
`Except` result type mirrors that the hook is allowed to raise.
-/

/-- `GasHeater.i_doublecheck` (`generic_gas_heater.py` lines 154–156):
`pass`. -/
def GasHeater.i_doublecheck (timestep : ℕ) (stsv : List ℚ) :
    Except String (List ℚ) :=
  Except.ok stsv

/-- `HeatDistribution.i_doublecheck` (`heat_distribution_system.py` lines
308–310): `pass`. -/
def HeatDistribution.i_doublecheck (timestep : ℕ) (stsv : List ℚ) :
    Except String (List ℚ) :=
  Except.ok stsv

/-- `HeatPumpHplib.i_doublecheck` (`advanced_heat_pump_hplib.py` lines
233–234): `pass`.  The heat pump carries a `HeatPumpState`, which the
hook does not touch. -/
def HeatPumpHplib.i_doublecheck (s : HeatPumpState) (timestep : ℕ) (stsv : List ℚ) :
    Except String (HeatPumpState × List ℚ) :=
  Except.ok (s, stsv)

/-!
Repository access during evaluation.  The ambient singleton repository is
threaded through the embedded per-timestep hooks; the source bodies of
`i_simulate` and `i_doublecheck` of the components under `src` contain no
`SingletonSimRepository()` call, so each wrapper returns the repository
it received.
-/

/-- `GasHeater.i_simulate` with the ambient repository made explicit; the
source body performs no repository access. -/
def GasHeater.i_simulate_with_repo (repo : SimRepository)
    (config : GenericGasHeaterConfig) (force_convergence : Bool)
    (control_signal : ℚ) (mass_flow_input_temperature : ℚ) :
    Except String Writes × SimRepository :=
  (GasHeater.i_simulate config force_convergence control_signal
    mass_flow_input_temperature, repo)

/-- `HeatDistribution.i_simulate` with the ambient repository made
explicit; the source body performs no repository access. -/
def HeatDistribution.i_simulate_with_repo (repo : SimRepository)
    (force_convergence : Bool) (c_w : ℚ) (water_mass_flow_rate : ℚ)
    (state_controller : ℚ) (theoretical_thermal_building_demand_in_watt : ℚ)
    (water_temperature_input_in_celsius : ℚ)
    (residence_temperature_input_in_celsius : ℚ) :
    Except String Writes × SimRepository :=
  (HeatDistribution.i_simulate force_convergence c_w water_mass_flow_rate
    state_controller theoretical_thermal_building_demand_in_watt
    water_temperature_input_in_celsius residence_temperature_input_in_celsius, repo)

/-- `SumBuilderForThreeInputs.i_simulate` with the ambient repository
made explicit; the source body performs no repository access. -/
def SumBuilderForThreeInputs.i_simulate_with_repo (repo : SimRepository)
    (force_convergence : Bool) (val1 val2 val3 : ℚ) :
    Except String Writes × SimRepository :=
  (SumBuilderForThreeInputs.i_simulate force_convergence val1 val2 val3, repo)

/-- `HeatDistribution.i_doublecheck` with the ambient repository made
explicit; the source body performs no repository access. -/
def HeatDistribution.i_doublecheck_with_repo (repo : SimRepository)
    (timestep : ℕ) (stsv : List ℚ) :
    Except String (List ℚ) × SimRepository :=
  (HeatDistribution.i_doublecheck timestep stsv, repo)

/-!
A small object heap, used to state that a cloned state object is a new,
independent object: the clone is allocated at a fresh reference, and a
write through either reference leaves the object behind the other
unchanged.
-/

/-- A heap of state objects of one type: cell `r` holds the object behind
reference `r`. -/
abbrev Heap (σ : Type) : Type := List σ

/-- Read the object behind a reference. -/
def Heap.read {σ : Type} (h : Heap σ) (r : ℕ) : Option σ :=
  h[r]?

/-- Allocate a new object, returning the grown heap and the fresh
reference. -/
def Heap.alloc {σ : Type} (h : Heap σ) (s : σ) : Heap σ × ℕ :=
  (h ++ [s], List.length h)

/-- Overwrite the object behind a reference (a field mutation of a state
object). -/
def Heap.write {σ : Type} (h : Heap σ) (r : ℕ) (s : σ) : Heap σ :=
  List.set h r s

/-- Running a clone operation on a heap: read the original behind `r`,
allocate a new object built from its fields.  This is the object-level
reading of `clone` / `self_copy`, which construct a new state object from
the scalar fields of the original. -/
def Heap.runClone {σ : Type} (cloneF : σ → σ) (h : Heap σ) (r : ℕ) :
    Option (Heap σ × ℕ) :=
  (Heap.read h r).map fun s => Heap.alloc h (cloneF s)

/-- The `ElectricalInputPower` field name of `HeatPumpHplib`. -/
def electricalInputPowerName : String := "ElectricalInputPower"

/-- The `COP` field name of `HeatPumpHplib`. -/
def copName : String := "COP"

/-- The `EER` field name of `HeatPumpHplib`. -/
def eerName : String := "EER"

/-- The `TemperatureOutput` field name of `HeatPumpHplib`. -/
def temperatureOutputName : String := "TemperatureOutput"

/-- The `MassFlowOutput` field name of `HeatPumpHplib`. -/
def massFlowOutputName : String := "MassFlowOutput"

/-- The `TimeOn` field name of `HeatPumpHplib`. -/
def timeOnName : String := "TimeOn"

/-- The `TimeOff` field name of `HeatPumpHplib`. -/
def timeOffName : String := "TimeOff"

/-- The `l2_DeviceSignal` field name of `L2_Controller`. -/
def l2DeviceSignalName : String := "l2_DeviceSignal"

/-- Output field names declared by `HeatPumpHplib` via `add_output`
(`advanced_heat_pump_hplib.py` lines 146–206). -/
def HeatPumpHplib.output_names : List String :=
  [thermalOutputPowerName, electricalInputPowerName, copName, eerName,
    temperatureOutputName, massFlowOutputName, timeOnName, timeOffName]

/-- Output field names declared by `L2_Controller` via `add_output`
(`controller_l2_generic_heat_clever_simple.py` lines 162–165). -/
def L2_Controller.output_names : List String := [l2DeviceSignalName]

/-- One result row of the external `hplib.simulate` call
(`P_th`, `P_el`, `COP`, `EER`, `T_out`, `m_dot`).  The hplib library is
external to the repository, so the heat pump embedding is parameterized
over this function. -/
structure HplibResult where
  p_th : ℚ
  p_el : ℚ
  cop : ℚ
  eer : ℚ
  t_out : ℚ
  m_dot : ℚ
  deriving DecidableEq, Repr

/-- The per-branch local values of `HeatPumpHplib.i_simulate`
(`p_th` … `m_dot` and the running times), computed by the mode branches
and consumed by the single write block of the source. -/
structure HeatPumpBranchValues where
  p_th : ℚ
  p_el : ℚ
  cop : ℚ
  eer : ℚ
  t_out : ℚ
  m_dot : ℚ
  time_on : ℤ
  time_on_cooling : ℤ
  time_off : ℤ
  deriving DecidableEq, Repr

/-- `HeatPumpHplib.i_simulate` (`advanced_heat_pump_hplib.py` lines
239–319).  On `force_convergence` the body is `pass`: no slab slot is
written and the state is untouched.  Otherwise: the on/off input is
overridden to honour the minimum on/off times (600 s), then the heating
(mode 1), cooling (mode 2) or off branch computes the outputs — the
external `hpl.simulate` call is the parameter `hpl_simulate` — and the
eight output slots and the new state are produced by one write block. -/
def HeatPumpHplib.i_simulate (hpl_simulate : ℚ → ℚ → ℚ → ℕ → HplibResult)
    (seconds_per_timestep : ℤ) (state : HeatPumpState)
    (force_convergence : Bool)
    (on_off_input t_in_primary t_in_secondary t_amb : ℚ) :
    Except String (Writes × HeatPumpState) :=
  if force_convergence then
    Except.ok ([], state)
  else
    let time_on_min : ℤ := 600
    let time_off_min : ℤ := time_on_min
    let time_on := state.time_on
    let time_on_cooling := state.time_on_cooling
    let time_off := state.time_off
    let on_off_previous := state.on_off_previous
    let on_off : ℚ :=
      if on_off_previous = 1 ∧ time_on < time_on_min then 1
      else if on_off_previous = -1 ∧ time_on_cooling < time_on_min then -1
      else if on_off_previous = 0 ∧ time_off < time_off_min then 0
      else on_off_input
    let b : HeatPumpBranchValues :=
      if on_off = 1 then
        let results := hpl_simulate t_in_primary t_in_secondary t_amb 1
        { p_th := results.p_th, p_el := results.p_el, cop := results.cop,
          eer := results.eer, t_out := results.t_out, m_dot := results.m_dot,
          time_on := time_on + seconds_per_timestep,
          time_on_cooling := time_on_cooling,
          time_off := 0 }
      else if on_off = -1 then
        let results := hpl_simulate t_in_primary t_in_secondary t_amb 2
        { p_th := results.p_th, p_el := results.p_el, cop := results.cop,
          eer := results.eer, t_out := results.t_out, m_dot := results.m_dot,
          time_on := time_on,
          time_on_cooling := time_on_cooling + seconds_per_timestep,
          time_off := 0 }
      else
        { p_th := 0, p_el := 0, cop := 0, eer := 0, t_out := t_in_secondary,
          m_dot := 0, time_on := 0, time_on_cooling := time_on_cooling,
          time_off := time_off + seconds_per_timestep }
    Except.ok ([(thermalOutputPowerName, b.p_th),
        (electricalInputPowerName, b.p_el),
        (copName, b.cop), (eerName, b.eer),
        (temperatureOutputName, b.t_out),
        (massFlowOutputName, b.m_dot),
        (timeOnName, (b.time_on : ℚ)), (timeOffName, (b.time_off : ℚ))],
      { time_on := b.time_on, time_off := b.time_off,
        time_on_cooling := b.time_on_cooling, on_off_previous := on_off })

/-- `L2_ControllerState` from `controller_l2_generic_heat_clever_simple.py`
(lines 72–110). -/
structure L2_ControllerState where
  timestep_actual : ℤ
  state : ℤ
  compulsory : ℤ
  count : ℤ
  deriving DecidableEq, Repr

/-- `L2_ControllerState.clone`. -/
def L2_ControllerState.clone (s : L2_ControllerState) : L2_ControllerState :=
  { timestep_actual := s.timestep_actual, state := s.state,
    compulsory := s.compulsory, count := s.count }

/-- `L2_ControllerState.is_first_iteration`: when the given timestep is
the successor of `timestep_actual`, advance it and reset `compulsory` and
`count`, returning `true`; otherwise leave the state unchanged. -/
def L2_ControllerState.is_first_iteration (s : L2_ControllerState)
    (timestep : ℤ) : Bool × L2_ControllerState :=
  if s.timestep_actual + 1 = timestep then
    (true,
      { s with timestep_actual := s.timestep_actual + 1, compulsory := 0, count := 0 })
  else
    (false, s)

/-- `L2_ControllerState.is_compulsory`: `compulsory` becomes 0 when
`count ≤ 1` and 1 otherwise. -/
def L2_ControllerState.is_compulsory (s : L2_ControllerState) : L2_ControllerState :=
  if s.count ≤ 1 then { s with compulsory := 0 } else { s with compulsory := 1 }

/-- `L2_ControllerState.activate`. -/
def L2_ControllerState.activate (s : L2_ControllerState) : L2_ControllerState :=
  { s with state := 1, compulsory := 1, count := s.count + 1 }

/-- `L2_ControllerState.deactivate`. -/
def L2_ControllerState.deactivate (s : L2_ControllerState) : L2_ControllerState :=
  { s with state := 0, compulsory := 1, count := s.count + 1 }

/-- The attributes of `L2_Controller` set by `build` (lines 239–253),
with the season thresholds already converted from days to timesteps, plus
the two facts the body branches on: whether the simulation parameters are
predictive and whether the `ElectricityTarget` input has a source
(`self.ElectricityTargetC.SourceOutput is not None`).  The cooling fields
are `Optional` in the source and assigned whenever `cooling_considered`
is true (as in `get_default_config_heating`); they are embedded as plain
rationals and are only read on paths where the source assigns them. -/
structure L2ControllerParams where
  T_min_heating : ℚ
  T_max_heating : ℚ
  T_tolerance : ℚ
  P_threshold : ℚ
  cooling_considered : Bool
  T_min_cooling : ℚ
  T_max_cooling : ℚ
  heating_season_begin : ℚ
  heating_season_end : ℚ
  predictive : Bool
  electricity_target_connected : Bool
  deriving DecidableEq, Repr

/-- `L2_Controller.control_heating` (lines 277–296): above the upper
bound both states deactivate, below the lower bound both activate; in
between, a compulsory state is kept, else the l3 recommendation is taken
when the electricity target is connected, else the previous state is
cloned back. -/
def L2_Controller.control_heating (electricity_target_connected : Bool)
    (st prev : L2_ControllerState)
    (T_control T_min_heating T_max_heating : ℚ) (l3state : ℤ) :
    L2_ControllerState × L2_ControllerState :=
  if T_control > T_max_heating then
    (st.deactivate, prev.deactivate)
  else if T_control < T_min_heating then
    (st.activate, prev.activate)
  else if st.compulsory = 1 then
    (st, prev)
  else if electricity_target_connected then
    ({ st with state := l3state }, prev)
  else
    (prev.clone, prev)

/-- `L2_Controller.control_cooling` (lines 255–275): above the upper
bound both states activate, below the lower bound both deactivate; the
fall-through cases are as in `control_heating`. -/
def L2_Controller.control_cooling (electricity_target_connected : Bool)
    (st prev : L2_ControllerState)
    (T_control T_min_cooling T_max_cooling : ℚ) (l3state : ℤ) :
    L2_ControllerState × L2_ControllerState :=
  if T_control > T_max_cooling then
    (st.activate, prev.activate)
  else if T_control < T_min_cooling then
    (st.deactivate, prev.deactivate)
  else if st.compulsory = 1 then
    (st, prev)
  else if electricity_target_connected then
    ({ st with state := l3state }, prev)
  else
    (prev.clone, prev)

/-- Message of the `UnboundLocalError` Python raises when the control
dispatch passes `l3state` without the electricity target being connected
(lines 368–388: the `else` branch assigns the temperature bounds but
never `l3state`). -/
def l2UnboundLocalMessage : String :=
  "UnboundLocalError: l3state referenced before assignment"

/-- `L2_Controller.i_simulate`
(`controller_l2_generic_heat_clever_simple.py` lines 307–389).  The two
input reads happen first; on `force_convergence` the remaining body is
`pass`: no slab slot is written and both states are untouched.
Otherwise the l3 recommendation and the adjusted temperature bounds are
computed (bounds are embedded as (lower, upper) pairs; locals that the
source leaves unassigned on paths where it also never reads them carry
the attribute values), the first-iteration reset runs, and the season
dispatch runs `control_cooling` or `control_heating` before the device
signal is written.  On the unconnected-target path the source raises an
`UnboundLocalError` at the dispatch call, embedded as the error case. -/
def L2_Controller.i_simulate (params : L2ControllerParams) (timestep : ℤ)
    (st prev : L2_ControllerState) (force_convergence : Bool)
    (T_control_input RunTimeSignal_input electricity_target : ℚ) :
    Except String (Writes × L2_ControllerState × L2_ControllerState) :=
  let T_control := T_control_input
  let RunTimeSignal := if params.predictive then RunTimeSignal_input else 0
  if force_convergence then
    Except.ok ([], st, prev)
  else
    let stage :=
      if params.electricity_target_connected then
        let l3state : ℤ := if electricity_target ≥ params.P_threshold then 1 else 0
        let cooling_bounds :=
          if params.cooling_considered then
            if l3state = 1 then
              ((if RunTimeSignal > 0 then params.T_min_cooling - params.T_tolerance
                else (params.T_min_cooling + params.T_max_cooling) / 2),
                params.T_max_cooling)
            else
              (params.T_min_cooling, params.T_max_cooling + params.T_tolerance)
          else
            (params.T_min_cooling, params.T_max_cooling)
        let heating_bounds :=
          if l3state = 1 then
            (params.T_min_heating,
              (if RunTimeSignal > 0 then params.T_max_heating + params.T_tolerance
               else (params.T_min_heating + params.T_max_heating) / 2))
          else
            (params.T_min_heating - params.T_tolerance, params.T_max_heating)
        (some l3state, heating_bounds, cooling_bounds,
          st.is_compulsory, prev.is_compulsory)
      else
        (none, (params.T_min_heating, params.T_max_heating),
          (params.T_min_cooling, params.T_max_cooling), st, prev)
    match stage with
    | (l3opt, heating_bounds, cooling_bounds, st1, prev1) =>
      let first := st1.is_first_iteration timestep
      let st2 := first.2
      let prev2 := if first.1 then (prev1.is_first_iteration timestep).2 else prev1
      match l3opt with
      | some l3state =>
        let controlled :=
          if params.cooling_considered then
            if (timestep : ℚ) < params.heating_season_begin ∧
                params.heating_season_end < (timestep : ℚ) then
              L2_Controller.control_cooling params.electricity_target_connected
                st2 prev2 T_control cooling_bounds.1 cooling_bounds.2 l3state
            else
              L2_Controller.control_heating params.electricity_target_connected
                st2 prev2 T_control heating_bounds.1 heating_bounds.2 l3state
          else
            L2_Controller.control_heating params.electricity_target_connected
              st2 prev2 T_control heating_bounds.1 heating_bounds.2 l3state
        Except.ok ([(l2DeviceSignalName, (controlled.1.state : ℚ))],
          controlled.1, controlled.2)
      | none => Except.error l2UnboundLocalMessage

/-- Constructor test for `Except` results of embedded fallible code. -/
def okBool {α : Type} : Except String α → Bool
  | Except.ok _ => true
  | Except.error _ => false

/-- C3: reading the unset maximum-thermal-building-demand key during
`HeatDistribution` construction fails with the `KeyError`, never a silent
default: whenever the key is absent from the repository, the embedded
constructor returns the error. -/
theorem heat_distribution_init_unset_key_raises (c_w : ℚ)
    (config : HeatDistributionConfig) (repo : SimRepository)
    (h : repo.exist_entry SingletonDictKeyEnum.MAXTHERMALBUILDINGDEMAND = false) :
    HeatDistribution.init c_w config repo =
      Except.error HeatDistribution.missing_key_message := by
  unfold HeatDistribution.init
  simp [h]

/-- Witness for C3: the empty repository of a fresh process has the key
unset, and constructing the default heat distribution system on it indeed
returns the `KeyError`. -/
theorem heat_distribution_init_unset_key_raises_witness :
    SimRepository.empty.exist_entry SingletonDictKeyEnum.MAXTHERMALBUILDINGDEMAND
        = false ∧
      HeatDistribution.init 4180
          HeatDistributionConfig.get_default_heatdistributionsystem_config
          SimRepository.empty =
        Except.error HeatDistribution.missing_key_message :=
  ⟨by decide, heat_distribution_init_unset_key_raises 4180
    HeatDistributionConfig.get_default_heatdistributionsystem_config
    SimRepository.empty (by decide)⟩

/-- Counterexample to C4: the repository is process-ambient, so two runs
executed in the same process DO influence each other through it.
Concretely: in a fresh process, constructing `HeatDistribution` fails
(the demand key is unset), but if a first run stored the demand key
(entry 5000) and its own construction residue in the ambient repository,
a second run in the same process that never set the key constructs
`HeatDistribution` successfully — run 1 changed run 2's component
construction. -/
theorem singleton_store_two_run_interference :
    okBool (HeatDistribution.init 4180
        HeatDistributionConfig.get_default_heatdistributionsystem_config
        SimRepository.empty) = false ∧
      (match HeatDistribution.init 4180
          HeatDistributionConfig.get_default_heatdistributionsystem_config
          (SimRepository.empty.set_entry
            SingletonDictKeyEnum.MAXTHERMALBUILDINGDEMAND 5000) with
       | Except.ok p =>
         okBool (HeatDistribution.init 4180
           HeatDistributionConfig.get_default_heatdistributionsystem_config p.2)
       | Except.error _ => false) = true := by
  exact ⟨rfl, rfl⟩

/-- C4 (amended): the shared context store is a process-wide singleton
reached ambiently from component constructors, so the outcome of
constructing `HeatDistribution` depends on whatever an earlier run in the
same process left in the ambient repository: on the empty repository of a
fresh process construction fails, while on a repository still holding a
demand entry from before it succeeds. -/
theorem singleton_store_ambient_lifetime (c_w : ℚ)
    (config : HeatDistributionConfig) (q : ℚ) :
    okBool (HeatDistribution.init c_w config SimRepository.empty) = false ∧
      okBool (HeatDistribution.init c_w config
        (SimRepository.empty.set_entry
          SingletonDictKeyEnum.MAXTHERMALBUILDINGDEMAND q)) = true := by
  exact ⟨rfl, rfl⟩

/-- C9: for a gas heater configuration with nonzero temperature delta,
`GasHeater.i_simulate` raises exactly when the control signal read from
the slab is above 1 or below 0; for every in-range signal it returns
normally and writes one and the same computed gas power value to both the
`ThermalOutputPower` and the `GasDemand` output slots. -/
theorem gas_heater_simulate_signal_range (config : GenericGasHeaterConfig)
    (force_convergence : Bool) (control_signal t_in : ℚ)
    (hdelta : config.temperature_delta_in_celsius ≠ 0) :
    (okBool (GasHeater.i_simulate config force_convergence control_signal t_in)
        = false ↔ 1 < control_signal ∨ control_signal < 0) ∧
      (0 ≤ control_signal → control_signal ≤ 1 →
        ∃ g m1 m2, GasHeater.i_simulate config force_convergence control_signal t_in =
          Except.ok [(thermalOutputPowerName, g), (massflowOutputTemperatureName, m1),
            (massflowOutputName, m2), (gasDemandName, g)]) := by
  unfold GasHeater.i_simulate
  constructor
  · constructor
    · intro hfail
      by_contra hc
      push_neg at hc
      rw [if_neg (not_lt.mpr hc.1), if_neg (not_lt.mpr hc.2)] at hfail
      simp [okBool] at hfail
    · intro hc
      rcases hc with hgt | hlt
      · rw [if_pos hgt]
        rfl
      · by_cases hgt : control_signal > 1
        · rw [if_pos hgt]
          rfl
        · rw [if_neg hgt, if_pos hlt]
          rfl
  · intro h0 h1
    rw [if_neg (not_lt.mpr h1), if_neg (not_lt.mpr h0)]
    exact ⟨_, _, _, rfl⟩

/-- Witness for C9: the default configuration has temperature delta 10,
and at control signal 1/2 evaluation succeeds with the gas power written
to both slots. -/
theorem gas_heater_simulate_signal_range_witness :
    GasHeater.get_default_config.temperature_delta_in_celsius ≠ 0 ∧
      (0:ℚ) ≤ 1/2 ∧ (1:ℚ)/2 ≤ 1 ∧
      (∃ g m1 m2, GasHeater.i_simulate GasHeater.get_default_config false (1/2) 40 =
        Except.ok [(thermalOutputPowerName, g), (massflowOutputTemperatureName, m1),
          (massflowOutputName, m2), (gasDemandName, g)]) :=
  ⟨by norm_num [GasHeater.get_default_config], by norm_num, by norm_num,
    (gas_heater_simulate_signal_range GasHeater.get_default_config false (1/2) 40
      (by norm_num [GasHeater.get_default_config])).2 (by norm_num) (by norm_num)⟩

/-- C10: on a non-forced pass with controller state 1, the embedded
`HeatDistribution.i_simulate` writes, for zero theoretical thermal
building demand, a water output temperature equal to the water input
temperature and a delivered thermal power of 0; and for strictly positive
demand, the written water output temperature is at least the minimum of
the water input temperature and the residence indoor-air temperature. -/
theorem heat_distribution_heat_exchange_bounds (c_w m Q Tin Tres : ℚ) :
    (Q = 0 → HeatDistribution.i_simulate false c_w m 1 Q Tin Tres =
        Except.ok [(waterTemperatureOutputName, Tin), (thermalPowerDeliveredName, 0)]) ∧
      (0 < Q → ∃ t p, HeatDistribution.i_simulate false c_w m 1 Q Tin Tres =
          Except.ok [(waterTemperatureOutputName, t), (thermalPowerDeliveredName, p)] ∧
        min Tin Tres ≤ t) := by
  constructor
  · intro hQ
    subst hQ
    simp [HeatDistribution.i_simulate, HeatDistribution.determine_water_temperature_output]
  · intro hQ
    by_cases hT : Tres < Tin
    · refine ⟨max (Tin - Q / (m * c_w)) Tres, c_w * m * (Tin - max (Tin - Q / (m * c_w)) Tres),
        ?_, ?_⟩
      · simp [HeatDistribution.i_simulate,
          HeatDistribution.determine_water_temperature_output, if_pos hQ, if_pos hT]
      · exact le_trans (min_le_right Tin Tres) (le_max_right _ Tres)
    · refine ⟨Tin, 0, ?_, min_le_left Tin Tres⟩
      simp [HeatDistribution.i_simulate,
        HeatDistribution.determine_water_temperature_output, if_pos hQ, if_neg hT]

/-- Witness for C10: at zero demand the input temperature 30 passes
through with power 0, and at demand 4180 (flow 1, heat capacity 4180,
residence 21) the written output temperature 29 is at least
`min 30 21`. -/
theorem heat_distribution_heat_exchange_bounds_witness :
    (HeatDistribution.i_simulate false 4180 1 1 0 30 21 =
        Except.ok [(waterTemperatureOutputName, 30), (thermalPowerDeliveredName, 0)]) ∧
      (∃ t p, HeatDistribution.i_simulate false 4180 1 1 4180 30 21 =
          Except.ok [(waterTemperatureOutputName, t), (thermalPowerDeliveredName, p)] ∧
        min (30:ℚ) 21 ≤ t) :=
  ⟨(heat_distribution_heat_exchange_bounds 4180 1 0 30 21).1 rfl,
    (heat_distribution_heat_exchange_bounds 4180 1 4180 30 21).2 (by norm_num)⟩

/-- C1: the commit/mutate/restore round-trip does NOT hold for every
component.  It holds for `Battery` and `HeatingWaterStorage` (first two
conjuncts, for every starting memory and every mutation of the current
state), but `HeatDistributionController.i_restore_state` assigns the
current mode to itself, so a mutation after saving survives the restore
(third conjunct, evaluated at mode `on` mutated to `off`); likewise both
hooks of `SumBuilderForThreeInputs` are `pass`, so its `state` attribute
is not restored either (fourth conjunct, state 5 mutated to 7). -/
theorem state_roundtrip_cycle :
    (∀ (m : BatteryMem) (y : BatteryState),
      (Battery.i_restore_state
        ({ Battery.i_save_state m with state := y })).state = m.state) ∧
      (∀ (m : HeatingWaterStorageMem) (y : HeatingWaterStorageState),
        (HeatingWaterStorage.i_restore_state
          ({ HeatingWaterStorage.i_save_state m with state := y })).state = m.state) ∧
      (HeatDistributionController.i_restore_state
          ({ HeatDistributionController.i_save_state ⟨modeOn, modeOff⟩ with
            controller_heat_distribution_mode := modeOff
            })).controller_heat_distribution_mode ≠ modeOn ∧
      (SumBuilderForThreeInputs.i_restore_state
          ({ SumBuilderForThreeInputs.i_save_state ⟨5, 0⟩ with
            state := 7 })).state ≠ 5 :=
  ⟨fun _ _ => rfl, fun _ _ => rfl, by decide, by decide⟩

/-- Counterexample to C2: an evaluation call of `HeatDistribution` with
`force_convergence = true` writes NO output slot at all (the source body
is `pass` on that branch), although the component declares two output
slots — so the final pass does not write values to all declared output
slots. -/
theorem forced_pass_writes_no_output :
    HeatDistribution.i_simulate true 4180 1 1 500 30 21 = Except.ok [] ∧
      HeatDistribution.output_names.length = 2 :=
  ⟨rfl, rfl⟩

/-- C2 (amended): on a `force_convergence = true` call, the components
that short-circuit — `HeatDistribution`, `HeatPumpHplib` and
`L2_Controller` — write none of their declared output slots (2, 8 and 1
slots respectively), leaving the slab values of the previous pass in
place and their states untouched; components without special-case logic
(`GasHeater` with an in-range control signal,
`SumBuilderForThreeInputs`) write all their declared output slots
regardless of the flag. -/
theorem forced_pass_short_circuit (c_w m s Q Tin Tres : ℚ)
    (config : GenericGasHeaterConfig) (f : Bool) (cs t_in v1 v2 v3 : ℚ)
    (hpl_simulate : ℚ → ℚ → ℚ → ℕ → HplibResult) (dt : ℤ)
    (hp_state : HeatPumpState) (on_off tp ts2 ta : ℚ)
    (params : L2ControllerParams) (ts : ℤ) (l2_st l2_prev : L2_ControllerState)
    (T_control RunTimeSignal elec_target : ℚ)
    (h0 : 0 ≤ cs) (h1 : cs ≤ 1) :
    HeatDistribution.i_simulate true c_w m s Q Tin Tres = Except.ok [] ∧
      HeatDistribution.output_names.length = 2 ∧
      HeatPumpHplib.i_simulate hpl_simulate dt hp_state true on_off tp ts2 ta =
        Except.ok ([], hp_state) ∧
      HeatPumpHplib.output_names.length = 8 ∧
      L2_Controller.i_simulate params ts l2_st l2_prev true
          T_control RunTimeSignal elec_target =
        Except.ok ([], l2_st, l2_prev) ∧
      L2_Controller.output_names.length = 1 ∧
      (∃ ws, GasHeater.i_simulate config f cs t_in = Except.ok ws ∧
        ∀ name ∈ GasHeater.output_names, (List.lookup name ws).isSome = true) ∧
      (∃ ws2, SumBuilderForThreeInputs.i_simulate f v1 v2 v3 = Except.ok ws2 ∧
        ∀ name ∈ SumBuilderForThreeInputs.output_names,
          (List.lookup name ws2).isSome = true) := by
  refine ⟨rfl, rfl, rfl, rfl, rfl, rfl, ?_, ?_⟩
  · simp only [GasHeater.i_simulate, if_neg (not_lt.mpr h1), if_neg (not_lt.mpr h0)]
    refine ⟨_, rfl, ?_⟩
    intro name hname
    fin_cases hname <;> rfl
  · refine ⟨_, rfl, ?_⟩
    intro name hname
    fin_cases hname <;> rfl

/-- Witness for C2 (amended): instantiated at the default gas heater
configuration with control signal 1/2, a concrete heat-distribution
input, a zero external hplib response with heat pump state 0, and the
default heating L2 controller parameters with fresh controller states. -/
theorem forced_pass_short_circuit_witness :
    HeatDistribution.i_simulate true 4180 1 1 500 30 21 = Except.ok [] ∧
      HeatDistribution.output_names.length = 2 ∧
      HeatPumpHplib.i_simulate (fun _ _ _ _ => HplibResult.mk 0 0 0 0 0 0) 60
          (HeatPumpState.mk 0 0 0 0) true 1 10 30 5 =
        Except.ok ([], HeatPumpState.mk 0 0 0 0) ∧
      HeatPumpHplib.output_names.length = 8 ∧
      L2_Controller.i_simulate
          (L2ControllerParams.mk 20 22 1 1500 true 23 25 6480 3600 true true) 0
          (L2_ControllerState.mk (-1) 0 0 0) (L2_ControllerState.mk (-1) 0 0 0)
          true 21 0 0 =
        Except.ok ([], L2_ControllerState.mk (-1) 0 0 0,
          L2_ControllerState.mk (-1) 0 0 0) ∧
      L2_Controller.output_names.length = 1 ∧
      (∃ ws, GasHeater.i_simulate GasHeater.get_default_config false (1/2) 40 =
          Except.ok ws ∧
        ∀ name ∈ GasHeater.output_names, (List.lookup name ws).isSome = true) ∧
      (∃ ws2, SumBuilderForThreeInputs.i_simulate false 1 2 3 = Except.ok ws2 ∧
        ∀ name ∈ SumBuilderForThreeInputs.output_names,
          (List.lookup name ws2).isSome = true) :=
  forced_pass_short_circuit 4180 1 1 500 30 21 GasHeater.get_default_config
    false (1/2) 40 1 2 3 (fun _ _ _ _ => HplibResult.mk 0 0 0 0 0 0) 60
    (HeatPumpState.mk 0 0 0 0) 1 10 30 5
    (L2ControllerParams.mk 20 22 1 1500 true 23 25 6480 3600 true true) 0
    (L2_ControllerState.mk (-1) 0 0 0) (L2_ControllerState.mk (-1) 0 0 0)
    21 0 0 (by norm_num) (by norm_num)

/-- Counterexample to C5: `CalculateOperation` (in `sumbuilder.py`) is a
domain component class that does not define the `i_prepare_simulation`
hook in its class body, so not every component class implements all five
SPI hooks. -/
theorem calculate_operation_lacks_prepare_hook :
    (ComponentClass.CalculateOperation, fourHooksNoPrepare) ∈ componentHookTables ∧
      fourHooksNoPrepare.has_i_prepare_simulation = false := by
  decide

/-- C5 (amended): every domain component class under
`src/hisim/components` defines `i_simulate`, `i_doublecheck`,
`i_save_state` and `i_restore_state`, but exactly the four classes
`CalculateOperation`, `SumBuilderForThreeInputs`, `L2_Controller` and
`HeatSource` do not define `i_prepare_simulation`. -/
theorem component_hook_coverage (e : ComponentClass × ComponentHookTable)
    (h : e ∈ componentHookTables) :
    (e.2.has_i_simulate = true ∧ e.2.has_i_doublecheck = true ∧
      e.2.has_i_save_state = true ∧ e.2.has_i_restore_state = true) ∧
      (e.2.has_i_prepare_simulation = false →
        e.1 = ComponentClass.CalculateOperation ∨
        e.1 = ComponentClass.SumBuilderForThreeInputs ∨
        e.1 = ComponentClass.L2_Controller ∨
        e.1 = ComponentClass.HeatSource) := by
  fin_cases h <;> decide

/-- Witness for C5 (amended): instantiated at the `L2_Controller` entry
of the hook table. -/
theorem component_hook_coverage_witness :
    (ComponentClass.L2_Controller, fourHooksNoPrepare) ∈ componentHookTables ∧
      ((fourHooksNoPrepare.has_i_simulate = true ∧
        fourHooksNoPrepare.has_i_doublecheck = true ∧
        fourHooksNoPrepare.has_i_save_state = true ∧
        fourHooksNoPrepare.has_i_restore_state = true) ∧
      (fourHooksNoPrepare.has_i_prepare_simulation = false →
        ComponentClass.L2_Controller = ComponentClass.CalculateOperation ∨
        ComponentClass.L2_Controller = ComponentClass.SumBuilderForThreeInputs ∨
        ComponentClass.L2_Controller = ComponentClass.L2_Controller ∨
        ComponentClass.L2_Controller = ComponentClass.HeatSource)) :=
  ⟨by decide, component_hook_coverage
    (ComponentClass.L2_Controller, fourHooksNoPrepare) (by decide)⟩

/-- C6: the doublecheck hooks mutate nothing: for every timestep, every
slab and every component state, the embedded `i_doublecheck` of
`GasHeater`, `HeatDistribution` and `HeatPumpHplib` returns normally with
the state and every slab slot unchanged. -/
theorem doublecheck_mutates_nothing (t : ℕ) (stsv : List ℚ) (s : HeatPumpState) :
    GasHeater.i_doublecheck t stsv = Except.ok stsv ∧
      HeatDistribution.i_doublecheck t stsv = Except.ok stsv ∧
      HeatPumpHplib.i_doublecheck s t stsv = Except.ok (s, stsv) :=
  ⟨rfl, rfl, rfl⟩

/-- C8: per-timestep evaluation never touches the shared context store:
with the ambient repository threaded through the embedded `i_simulate`
and `i_doublecheck` hooks, every call returns the repository unchanged,
and its slab result is the same for any two repository contents. -/
theorem evaluation_does_not_access_store (repo repo2 : SimRepository)
    (config : GenericGasHeaterConfig) (f : Bool) (cs t_in : ℚ)
    (c_w m s Q Tin Tres v1 v2 v3 : ℚ) (t : ℕ) (stsv : List ℚ) :
    (GasHeater.i_simulate_with_repo repo config f cs t_in).2 = repo ∧
      (GasHeater.i_simulate_with_repo repo config f cs t_in).1 =
        (GasHeater.i_simulate_with_repo repo2 config f cs t_in).1 ∧
      (HeatDistribution.i_simulate_with_repo repo f c_w m s Q Tin Tres).2 = repo ∧
      (HeatDistribution.i_simulate_with_repo repo f c_w m s Q Tin Tres).1 =
        (HeatDistribution.i_simulate_with_repo repo2 f c_w m s Q Tin Tres).1 ∧
      (SumBuilderForThreeInputs.i_simulate_with_repo repo f v1 v2 v3).2 = repo ∧
      (SumBuilderForThreeInputs.i_simulate_with_repo repo f v1 v2 v3).1 =
        (SumBuilderForThreeInputs.i_simulate_with_repo repo2 f v1 v2 v3).1 ∧
      (HeatDistribution.i_doublecheck_with_repo repo t stsv).2 = repo ∧
      (HeatDistribution.i_doublecheck_with_repo repo t stsv).1 =
        (HeatDistribution.i_doublecheck_with_repo repo2 t stsv).1 :=
  ⟨rfl, rfl, rfl, rfl, rfl, rfl, rfl, rfl⟩

/-- Running a clone operation on a heap yields a fresh reference holding
the cloned fields, and the two references are independent: the original
is still readable unchanged, and overwriting the object behind either
reference leaves the object behind the other untouched. -/
theorem Heap.runClone_independent {σ : Type} (cloneF : σ → σ) (h : Heap σ)
    (r r2 : ℕ) (h2 : Heap σ) (s : σ)
    (hread : Heap.read h r = some s)
    (hrun : Heap.runClone cloneF h r = some (h2, r2)) :
    r2 ≠ r ∧ Heap.read h2 r2 = some (cloneF s) ∧ Heap.read h2 r = some s ∧
      (∀ v, Heap.read (Heap.write h2 r2 v) r = some s) ∧
      (∀ v, Heap.read (Heap.write h2 r v) r2 = some (cloneF s)) := by
  have hlt : r < h.length := by
    rcases List.getElem?_eq_some.mp hread with ⟨hl, _⟩
    exact hl
  unfold Heap.runClone at hrun
  rw [hread] at hrun
  unfold Heap.alloc at hrun
  have hrun2 : (some (h ++ [cloneF s], h.length) : Option (Heap σ × ℕ)) =
      some (h2, r2) := by
    rw [← hrun]
    rfl
  injection hrun2 with heq
  injection heq with hh2 hr2
  subst hh2
  subst hr2
  simp only [Heap.read, Heap.write]
  refine ⟨Nat.ne_of_gt hlt, List.getElem?_concat_length h (cloneF s),
    (List.getElem?_append_left hlt).trans hread, ?_, ?_⟩
  · intro v
    rw [List.getElem?_set_ne (Nat.ne_of_gt hlt)]
    exact (List.getElem?_append_left hlt).trans hread
  · intro v
    rw [List.getElem?_set_ne (Nat.ne_of_lt hlt)]
    exact List.getElem?_concat_length h (cloneF s)

/-- C7: each of the three clone operations returns a state whose fields
all equal the original (first three conjuncts), and the clone is an
independent object: run on a heap of state objects, cloning allocates a
fresh reference, and overwriting the object behind either the original or
the cloned reference leaves the object behind the other unchanged (last
three conjuncts). -/
theorem state_clone_deep_copy :
    (∀ s : BatteryState, s.clone = s) ∧
      (∀ s : HeatingWaterStorageState, s.clone = s) ∧
      (∀ s : HeatPumpState, s.self_copy = s) ∧
      (∀ (h : Heap BatteryState) (r r2 : ℕ) (h2 : Heap BatteryState)
        (s : BatteryState), Heap.read h r = some s →
        Heap.runClone BatteryState.clone h r = some (h2, r2) →
        r2 ≠ r ∧ Heap.read h2 r2 = some s.clone ∧ Heap.read h2 r = some s ∧
          (∀ v, Heap.read (Heap.write h2 r2 v) r = some s) ∧
          (∀ v, Heap.read (Heap.write h2 r v) r2 = some s.clone)) ∧
      (∀ (h : Heap HeatingWaterStorageState) (r r2 : ℕ)
        (h2 : Heap HeatingWaterStorageState) (s : HeatingWaterStorageState),
        Heap.read h r = some s →
        Heap.runClone HeatingWaterStorageState.clone h r = some (h2, r2) →
        r2 ≠ r ∧ Heap.read h2 r2 = some s.clone ∧ Heap.read h2 r = some s ∧
          (∀ v, Heap.read (Heap.write h2 r2 v) r = some s) ∧
          (∀ v, Heap.read (Heap.write h2 r v) r2 = some s.clone)) ∧
      (∀ (h : Heap HeatPumpState) (r r2 : ℕ) (h2 : Heap HeatPumpState)
        (s : HeatPumpState), Heap.read h r = some s →
        Heap.runClone HeatPumpState.self_copy h r = some (h2, r2) →
        r2 ≠ r ∧ Heap.read h2 r2 = some s.self_copy ∧ Heap.read h2 r = some s ∧
          (∀ v, Heap.read (Heap.write h2 r2 v) r = some s) ∧
          (∀ v, Heap.read (Heap.write h2 r v) r2 = some s.self_copy)) :=
  ⟨fun _ => rfl, fun _ => rfl, fun _ => rfl,
    fun h r r2 h2 s hr hrun =>
      Heap.runClone_independent BatteryState.clone h r r2 h2 s hr hrun,
    fun h r r2 h2 s hr hrun =>
      Heap.runClone_independent HeatingWaterStorageState.clone h r r2 h2 s hr hrun,
    fun h r r2 h2 s hr hrun =>
      Heap.runClone_independent HeatPumpState.self_copy h r r2 h2 s hr hrun⟩

/-- Witness for C7: a one-object battery heap with state of charge 1;
cloning reference 0 allocates reference 1 and the two references are
independent. -/
theorem state_clone_deep_copy_witness :
    Heap.read ([⟨1⟩] : Heap BatteryState) 0 = some ⟨1⟩ ∧
      Heap.runClone BatteryState.clone [⟨1⟩] 0 = some ([⟨1⟩, ⟨1⟩], 1) ∧
      ((1 : ℕ) ≠ 0 ∧
        Heap.read ([⟨1⟩, ⟨1⟩] : Heap BatteryState) 1 =
          some (BatteryState.clone ⟨1⟩) ∧
        Heap.read ([⟨1⟩, ⟨1⟩] : Heap BatteryState) 0 = some ⟨1⟩ ∧
        (∀ v, Heap.read (Heap.write ([⟨1⟩, ⟨1⟩] : Heap BatteryState) 1 v) 0 =
          some ⟨1⟩) ∧
        (∀ v, Heap.read (Heap.write ([⟨1⟩, ⟨1⟩] : Heap BatteryState) 0 v) 1 =
          some (BatteryState.clone ⟨1⟩))) :=
  ⟨rfl, rfl, state_clone_deep_copy.2.2.2.1 [⟨1⟩] 0 1 [⟨1⟩, ⟨1⟩] ⟨1⟩ rfl rfl⟩

end HiSim
